import Mathlib

/-!
Verification of the anon_excel survey-anonymization package.

The Python sources under `src/anon_excel/` are shallowly embedded as Lean
definitions: a pandas `DataFrame` becomes a list of column names plus a list
of rows of cells, pandas operations become the corresponding list
transformations, and fallible operations (those that can raise `KeyError`)
return `Except String`.  Functions that mutate their argument in place are
embedded as functions returning a pair `(return value, state of the caller's
argument object after the call)`.
-/

namespace AnonExcel

/-- A cell of a pandas DataFrame: a string, a numeric rank, or NaN/NA. -/
inductive Cell where
  | str (s : String)
  | num (n : Nat)
  | null
deriving DecidableEq, Repr

/-- A pandas DataFrame: named columns and rows of cells.  In every frame the
    program builds, each row has exactly one cell per column. -/
structure DataFrame where
  cols : List String
  rows : List (List Cell)
deriving DecidableEq, Repr

/-- Index of a column name in a column list (first match). -/
def findCol : List String → String → Option Nat
  | [], _ => none
  | x :: xs, c => if x = c then some 0 else (findCol xs c).map (· + 1)

/-- The cell of row `r` under column `c` of frame `df`. -/
def DataFrame.cellAt (df : DataFrame) (r : List Cell) (c : String) : Cell :=
  match findCol df.cols c with
  | some i => r.getD i Cell.null
  | none => Cell.null

/-- `df[c]`: the column of cells named `c`. -/
def DataFrame.col (df : DataFrame) (c : String) : List Cell :=
  df.rows.map (fun r => df.cellAt r c)

/-- `c in df.columns`. -/
def DataFrame.hasCol (df : DataFrame) (c : String) : Bool :=
  df.cols.contains c

/-- `df[c] = vs`: pandas column assignment.  Replaces the column in place if
    present, otherwise appends it as the last column.  Rows are rebuilt in
    column order (pandas stores frames column-wise). -/
def DataFrame.setCol (df : DataFrame) (c : String) (vs : List Cell) : DataFrame :=
  let cols' := if df.cols.contains c then df.cols else df.cols ++ [c]
  ⟨cols', (df.rows.zip vs).map
    (fun rv => cols'.map (fun c' => if c' = c then rv.2 else df.cellAt rv.1 c'))⟩

/-- `df[c] = df[c].apply(f)` at cell level. -/
def DataFrame.mapCol (df : DataFrame) (c : String) (f : Cell → Cell) : DataFrame :=
  df.setCol c ((df.col c).map f)

/-- `df[cs]`: column projection, in the order given by `cs`. -/
def DataFrame.select (df : DataFrame) (cs : List String) : DataFrame :=
  ⟨cs, df.rows.map (fun r => cs.map (fun c => df.cellAt r c))⟩

/-- `df[mask-on-column-c]`: keep the rows whose `c`-cell satisfies `p`. -/
def DataFrame.filterByCol (df : DataFrame) (c : String) (p : Cell → Bool) : DataFrame :=
  ⟨df.cols, df.rows.filter (fun r => p (df.cellAt r c))⟩

/-- `df.columns = cs`: rename all columns positionally. -/
def DataFrame.setColumns (df : DataFrame) (cs : List String) : DataFrame :=
  ⟨cs, df.rows⟩

/-- `df.dropna(axis='index', subset=[c])`: raises `KeyError` when `c` is not a
    column, otherwise drops the rows whose `c`-cell is NaN. -/
def DataFrame.dropna (df : DataFrame) (c : String) : Except String DataFrame :=
  if df.hasCol c then
    .ok (df.filterByCol c (fun v => v ≠ Cell.null))
  else
    .error ("KeyError: " ++ c)

/-- Row-deduplication worker: drop a row when its `c`-cell was already seen. -/
def dropDupRows (df : DataFrame) (c : String) : List (List Cell) → List Cell → List (List Cell)
  | [], _ => []
  | r :: rs, seen =>
    if seen.contains (df.cellAt r c) then dropDupRows df c rs seen
    else r :: dropDupRows df c rs (df.cellAt r c :: seen)

/-- `df.drop_duplicates(subset=[c])`: keep the first row for each `c`-value,
    in the original row order. -/
def DataFrame.drop_duplicates (df : DataFrame) (c : String) : DataFrame :=
  ⟨df.cols, dropDupRows df c df.rows []⟩

/-- The string content of a cell (the identifier columns the program feeds to
    string operations hold `string`-dtype cells after `astype`). -/
def cellKey : Cell → String
  | Cell.str s => s
  | Cell.num n => toString n
  | Cell.null => ""

/-- Cell-level effect of `astype({c: 'string'})`: non-null values become their
    string rendering, NaN stays NaN. -/
def astype_cell : Cell → Cell
  | Cell.null => Cell.null
  | v => Cell.str (cellKey v)

/-- `df.astype({c: 'string'})` applied to the one column the program converts. -/
def DataFrame.astypeStr (df : DataFrame) (c : String) : DataFrame :=
  df.mapCol c astype_cell

/-- First row of `df.values` (`.values[0]`); `IndexError` when empty. -/
def DataFrame.firstRow (df : DataFrame) : Except String (List Cell) :=
  match df.rows with
  | r :: _ => .ok r
  | [] => .error "IndexError: index 0 is out of bounds"

/-- Lexicographic code-point comparison of character lists (Python/pandas
    string ordering). -/
def charsLt : List Char → List Char → Bool
  | [], [] => false
  | [], _ :: _ => true
  | _ :: _, [] => false
  | a :: as, b :: bs =>
    if a.toNat < b.toNat then true
    else if b.toNat < a.toNat then false
    else charsLt as bs

/-- Python string `<`. -/
def strLt (a b : String) : Bool := charsLt a.toList b.toList

/-- Stable insertion into a list of rows, ascending on `key`. -/
def insertSortedBy {α : Type} (key : α → String) (r : α) : List α → List α
  | [] => [r]
  | x :: xs => if strLt (key x) (key r) then x :: insertSortedBy key r xs else r :: x :: xs

/-- Sort a list of rows ascending on a string key (models
    `sort_values(by=[c])`; the rows the program sorts have pairwise distinct
    keys, so stability and sort algorithm do not matter). -/
def sortBy {α : Type} (key : α → String) (l : List α) : List α :=
  l.foldr (insertSortedBy key) []

/-- `df.sort_values(by=[c])`: `KeyError` when `c` is not a column, else sort
    the rows ascending by the string content of the `c`-cell. -/
def DataFrame.sort_values (df : DataFrame) (c : String) : Except String DataFrame :=
  if df.hasCol c then
    .ok ⟨df.cols, sortBy (fun r => cellKey (df.cellAt r c)) df.rows⟩
  else
    .error ("KeyError: " ++ c)

/-- `left.merge(right, on=c)`: inner join on column `c`; for each left row, in
    order, the matching right rows contribute their non-`c` columns. -/
def DataFrame.merge (l r : DataFrame) (onCol : String) : DataFrame :=
  let rcols := r.cols.filter (fun c => c ≠ onCol)
  ⟨l.cols ++ rcols,
    (l.rows.map (fun lr =>
      (r.rows.filter (fun rr => r.cellAt rr onCol = l.cellAt lr onCol)).map
        (fun rr => lr ++ rcols.map (fun c => r.cellAt rr c)))).flatten⟩

/-! ### calc_stats.py -/

/-- Association-list lookup mirroring a Python `dict` lookup. -/
def lookupA {β : Type} : List (String × β) → String → Option β
  | [], _ => none
  | (k, v) :: rest, s => if k = s then some v else lookupA rest s

/-- `POSITIV_RANK` from calc_stats.py. -/
def POSITIV_RANK : List (String × Nat) :=
  [("Strongly agree (SA)", 4), ("Agree (A)", 3), ("Neutral (N)", 2),
   ("Disagree (D)", 1), ("Strongly Disagree (SD)", 0), ("", 0)]

/-- `NEGATIV_RANK` from calc_stats.py. -/
def NEGATIV_RANK : List (String × Nat) :=
  [("Strongly agree (SA)", 0), ("Agree (A)", 1), ("Neutral (N)", 2),
   ("Disagree (D)", 3), ("Strongly Disagree (SD)", 4), ("", 0)]

/-- `RANK_LOOKUP` from calc_stats.py, in dict insertion order. -/
def RANK_LOOKUP : List (String × List (String × Nat)) :=
  [("I feel that students in this course care about each other", POSITIV_RANK),
   ("I feel that I am encouraged to ask questions", POSITIV_RANK),
   ("I feel connected to others in this course", POSITIV_RANK),
   ("I feel that it is hard to get help when I have a question", NEGATIV_RANK),
   ("I do not feel a spirit of community", NEGATIV_RANK),
   ("I feel that I receive timely feedback", POSITIV_RANK),
   ("I feel that this course is like a family", POSITIV_RANK),
   ("I feel uneasy exposing gaps in my understanding", NEGATIV_RANK),
   ("I feel isolated in this course", NEGATIV_RANK),
   ("I feel reluctant to speak openly", NEGATIV_RANK),
   ("I trust others in this course", POSITIV_RANK),
   ("I feel that this course results in only modest learning", NEGATIV_RANK),
   ("I feel that I can rely on others in this course", POSITIV_RANK),
   ("I feel that other students do not help me learn", NEGATIV_RANK),
   ("I feel that members of this course depend on me", POSITIV_RANK),
   ("I feel that I am given ample opportunities to learn", POSITIV_RANK),
   ("I feel uncertain about others in this course", NEGATIV_RANK),
   ("I feel that my educational needs are not being met", NEGATIV_RANK),
   ("I feel confident that others will support me", POSITIV_RANK),
   ("I feel that this course does not promote a desire to learn", NEGATIV_RANK)]

/-- The question vocabulary: `RANK_LOOKUP.keys()` in declaration order. -/
def rankKeys : List String := RANK_LOOKUP.map Prod.fst

/-- Python's `str.isspace` / regex `\s` character class (whitespace code
    points stripped by `str.strip` and matched by `\s`). -/
def pyIsSpace (c : Char) : Bool :=
  c.toNat ∈ [9, 10, 11, 12, 13, 28, 29, 30, 31, 32, 0x85, 0xA0, 0x1680,
    0x2000, 0x2001, 0x2002, 0x2003, 0x2004, 0x2005, 0x2006, 0x2007, 0x2008,
    0x2009, 0x200A, 0x2028, 0x2029, 0x202F, 0x205F, 0x3000]

/-- Worker for whitespace collapsing; the flag records whether the previous
    character belonged to a whitespace run already emitted as one space. -/
def collapseWsAux : Bool → List Char → List Char
  | _, [] => []
  | inRun, c :: rest =>
    if pyIsSpace c then
      if inRun then collapseWsAux true rest
      else ' ' :: collapseWsAux true rest
    else c :: collapseWsAux false rest

/-- `series.replace(r'\s+', ' ', regex=True)` on one string: every maximal
    run of whitespace becomes a single space. -/
def collapseWs (s : String) : String :=
  (collapseWsAux false s.toList).asString

/-- The whitespace-collapse step on a cell: pandas `.replace` with a regex
    rewrites string cells only. -/
def collapse_cell : Cell → Cell
  | Cell.str s => Cell.str (collapseWs s)
  | v => v

/-- `series.map(ranks)`: a cell equal to a key of the dict maps to its rank;
    any other cell (unknown label, number, NaN) maps to NaN. -/
def map_ranks (ranks : List (String × Nat)) : Cell → Cell
  | Cell.str s =>
    match lookupA ranks s with
    | some n => Cell.num n
    | none => Cell.null
  | _ => Cell.null

/-- The combined per-cell effect of `category_to_rank` on a scored column:
    collapse whitespace, then look the label up in the question's rank dict. -/
def rank_cell (ranks : List (String × Nat)) (c : Cell) : Cell :=
  map_ranks ranks (collapse_cell c)

/-- One iteration of the `category_to_rank` loop body: when the question is a
    column of the frame, collapse whitespace in that column and map the labels
    to ranks. -/
def rankStep (acc : DataFrame) (qr : String × List (String × Nat)) : DataFrame :=
  if acc.hasCol qr.1 then (acc.mapCol qr.1 collapse_cell).mapCol qr.1 (map_ranks qr.2)
  else acc

/-- `category_to_rank` (calc_stats.py): on a copy of the frame, for each
    question of `RANK_LOOKUP` present among the columns, collapse whitespace
    in the column and map the labels to ranks.  Result of the pure frame
    computation, before pairing with the unmutated caller frame. -/
def category_to_rank_df (df : DataFrame) : DataFrame :=
  RANK_LOOKUP.foldl rankStep df

/-- `category_to_rank` as seen by a caller: `(return value, caller's table
    after the call)`.  The source copies the frame (`df.copy()`) before
    mutating, so the caller's object is unchanged. -/
def category_to_rank (df : DataFrame) : DataFrame × DataFrame :=
  (category_to_rank_df df, df)

/-- A Python `set`'s iteration order is hash-dependent and not fixed across
    interpreter runs.  `IsSetEnum enum` says `enum` is one possible
    enumeration: for every list, `enum l` lists the distinct elements of `l`
    (its `dedup`) in some order. -/
def IsSetEnum (enum : List String → List String) : Prop :=
  ∀ l : List String, (enum l).Perm l.dedup

/-- `determine_common_questions` (calc_stats.py):
    `list(set(RANK_LOOKUP.keys()).intersection(set(bf.columns) & set(af.columns)))`.
    The member set is the intersection; the list order is the set iteration
    order, modelled by `enum`. -/
def determine_common_questions (enum : List String → List String)
    (df_bf df_af : DataFrame) : List String :=
  enum (rankKeys.filter (fun q => df_bf.hasCol q && df_af.hasCol q))

/-- `determine_common_students` (calc_stats.py): the set of `id_column` values
    occurring in both frames, enumerated in set iteration order. -/
def determine_common_students (enum : List String → List String)
    (df_before df_after : DataFrame) (id_column : String) : List String :=
  enum (((df_before.col id_column).map cellKey).filter
    (fun s => ((df_after.col id_column).map cellKey).contains s))

/-- `f'before_{n:02}'` / `f'after_{n:02}'` number formatting. -/
def pad2 (n : Nat) : String :=
  if n < 10 then "0" ++ toString n else toString n

/-- One row of the per-question result table `df_pairs`:
    `{'question': ..., 'statistic': res.statistic, 'pvalue': res.pvalue}`,
    with the scipy t-test result kept abstract as `res`. -/
structure QuestionStat (α : Type) where
  question : String
  res : α
deriving DecidableEq, Repr

/-- One row of the per-student result table `df_stud_pairs`. -/
structure StudentStat (α : Type) where
  student : String
  res : α
deriving DecidableEq, Repr

/-- The question legend `df_legend` (columns Question, Before_question_ID,
    After_question_ID), kept as its three defining lists. -/
structure Legend where
  questions : List String
  before_ids : List String
  after_ids : List String
deriving DecidableEq, Repr

/-- The tuple `paired_ttest` returns:
    `(df_pairs, df_combined, df_legend, df_bf, df_af, df_stud_pairs)`. -/
structure TTestOutput (α : Type) where
  pairs : List (QuestionStat α)
  combined : DataFrame
  legend : Legend
  bf : DataFrame
  af : DataFrame
  stud_pairs : List (StudentStat α)
deriving DecidableEq, Repr

/-- `paired_ttest` (calc_stats.py).  `ttest_rel` abstracts
    `scipy.stats.ttest_rel` (its floating-point result is irrelevant to what
    is proved here, only which sample vectors it receives); `enum` models
    Python set iteration order.  `pd.DataFrame([])` has no columns, so
    `sort_values` on an empty result table raises `KeyError`, modelled by the
    two guarded sorts at the end. -/
def paired_ttest {α : Type} (ttest_rel : List Cell → List Cell → α)
    (enum : List String → List String)
    (df_before df_after : DataFrame) (id_column : String) :
    Except String (TTestOutput α) := do
  let df_before ← df_before.sort_values id_column
  let df_after ← df_after.sort_values id_column
  let questions := determine_common_questions enum df_before df_after
  let stud_common := determine_common_students enum df_before df_after id_column
  let df_before := df_before.select (id_column :: questions)
  let df_after := df_after.select (id_column :: questions)
  let df_bf := df_before.filterByCol id_column (fun c => stud_common.contains (cellKey c))
  let df_af := df_after.filterByCol id_column (fun c => stud_common.contains (cellKey c))
  let quests_before := (List.range questions.length).map (fun n => "before_" ++ pad2 (n + 1))
  let quests_after := (List.range questions.length).map (fun n => "after_" ++ pad2 (n + 1))
  let df_bf := df_bf.setColumns (id_column :: quests_before)
  let df_af := df_af.setColumns (id_column :: quests_after)
  let df_combined := df_bf.merge df_af id_column
  let combined_cols := id_column ::
    ((quests_before.zip quests_after).map (fun ba => [ba.1, ba.2])).flatten
  let df_combined := df_combined.select combined_cols
  let pairs := ((quests_before.zip quests_after).zip questions).map (fun bq =>
    let df_q := df_combined.select [id_column, bq.1.1, bq.1.2]
    { question := bq.2, res := ttest_rel (df_q.col bq.1.1) (df_q.col bq.1.2) :
      QuestionStat α })
  let stud_pairs ← stud_common.mapM (fun stud => do
    let before ← ((df_bf.filterByCol id_column (fun c => cellKey c == stud)).select
      (quests_before.drop 1)).firstRow
    let after ← ((df_af.filterByCol id_column (fun c => cellKey c == stud)).select
      (quests_after.drop 1)).firstRow
    pure { student := stud, res := ttest_rel before after : StudentStat α })
  let question_legend : Legend :=
    { questions := questions, before_ids := quests_before, after_ids := quests_after }
  let df_pairs ←
    if pairs.isEmpty then Except.error "KeyError: question"
    else pure (sortBy (fun p => p.question) pairs)
  let df_stud_pairs ←
    if stud_pairs.isEmpty then Except.error ("KeyError: " ++ id_column)
    else pure (sortBy (fun p => p.student) stud_pairs)
  pure { pairs := df_pairs, combined := df_combined, legend := question_legend,
         bf := df_bf, af := df_af, stud_pairs := df_stud_pairs }

/-! ### BLAKE2b (RFC 7693), as used by `hashlib.blake2b(..., digest_size=8)`

64-bit words are `Nat` values kept below `2 ^ 64` by explicit reduction. -/

/-- `2 ^ 64`. -/
def M64 : Nat := 18446744073709551616

/-- 64-bit modular addition. -/
def add64 (a b : Nat) : Nat := (a + b) % M64

/-- Bitwise xor (stays below `2 ^ 64` for inputs below it). -/
def xor64 (a b : Nat) : Nat := Nat.xor a b

/-- Rotate a 64-bit word right by `n` bits (`0 < n < 64`), written with
    division and remainder: the high part shifts down, the low `n` bits move
    to the top. -/
def rotr64 (x n : Nat) : Nat := x / 2 ^ n + x % 2 ^ n * 2 ^ (64 - n)

/-- The BLAKE2b initialization vector (RFC 7693 §2.6). -/
def blakeIV : List Nat :=
  [0x6a09e667f3bcc908, 0xbb67ae8584caa73b, 0x3c6ef372fe94f82b, 0xa54ff53a5f1d36f1,
   0x510e527fade682d1, 0x9b05688c2b3e6c1f, 0x1f83d9abfb41bd6b, 0x5be0cd19137e2179]

/-- The message schedule SIGMA (RFC 7693 §2.7). -/
def blakeSigma : List (List Nat) :=
  [[0, 1, 2, 3, 4, 5, 6, 7, 8, 9, 10, 11, 12, 13, 14, 15],
   [14, 10, 4, 8, 9, 15, 13, 6, 1, 12, 0, 2, 11, 7, 5, 3],
   [11, 8, 12, 0, 5, 2, 15, 13, 10, 14, 3, 6, 7, 1, 9, 4],
   [7, 9, 3, 1, 13, 12, 11, 14, 2, 6, 5, 10, 4, 0, 15, 8],
   [9, 0, 5, 7, 2, 4, 10, 15, 14, 1, 11, 12, 6, 8, 3, 13],
   [2, 12, 6, 10, 0, 11, 8, 3, 4, 13, 7, 5, 15, 14, 1, 9],
   [12, 5, 1, 15, 14, 13, 4, 10, 0, 7, 6, 3, 9, 2, 8, 11],
   [13, 11, 7, 14, 12, 1, 3, 9, 5, 0, 15, 4, 8, 6, 2, 10],
   [6, 15, 14, 9, 11, 3, 0, 8, 12, 2, 13, 7, 1, 4, 10, 5],
   [10, 2, 8, 4, 7, 6, 1, 5, 15, 11, 9, 14, 3, 12, 13, 0]]

/-- The G mixing function (RFC 7693 §3.1) acting on the 16-word work vector. -/
def gmix (v : List Nat) (a b c d x y : Nat) : List Nat :=
  let va := add64 (add64 (v.getD a 0) (v.getD b 0)) x
  let vd := rotr64 (xor64 (v.getD d 0) va) 32
  let vc := add64 (v.getD c 0) vd
  let vb := rotr64 (xor64 (v.getD b 0) vc) 24
  let va2 := add64 (add64 va vb) y
  let vd2 := rotr64 (xor64 vd va2) 16
  let vc2 := add64 vc vd2
  let vb2 := rotr64 (xor64 vb vc2) 63
  (((v.set a va2).set b vb2).set c vc2).set d vd2

/-- One round of the compression function: column step then diagonal step. -/
def blakeRound (m v : List Nat) (r : Nat) : List Nat :=
  let s := blakeSigma.getD (r % 10) []
  let mi := fun i => m.getD (s.getD i 0) 0
  let v1 := gmix v 0 4 8 12 (mi 0) (mi 1)
  let v2 := gmix v1 1 5 9 13 (mi 2) (mi 3)
  let v3 := gmix v2 2 6 10 14 (mi 4) (mi 5)
  let v4 := gmix v3 3 7 11 15 (mi 6) (mi 7)
  let v5 := gmix v4 0 5 10 15 (mi 8) (mi 9)
  let v6 := gmix v5 1 6 11 12 (mi 10) (mi 11)
  let v7 := gmix v6 2 7 8 13 (mi 12) (mi 13)
  gmix v7 3 4 9 14 (mi 14) (mi 15)

/-- Little-endian 64-bit word from up to eight bytes. -/
def leWord (bytes : List Nat) : Nat :=
  bytes.foldr (fun b acc => acc * 256 + b) 0

/-- The compression function F (RFC 7693 §3.2) on a 128-byte block, with byte
    counter `t` and final-block flag `last`. -/
def blakeCompress (h block : List Nat) (t : Nat) (last : Bool) : List Nat :=
  let m := (List.range 16).map (fun i => leWord ((block.drop (8 * i)).take 8))
  let v0 := h ++ blakeIV
  let v1 := v0.set 12 (xor64 (v0.getD 12 0) (t % M64))
  let v2 := v1.set 13 (xor64 (v1.getD 13 0) (t / M64 % M64))
  let v3 := if last then v2.set 14 (xor64 (v2.getD 14 0) (M64 - 1)) else v2
  let vf := (List.range 12).foldl (fun v r => blakeRound m v r) v3
  (List.range 8).map (fun i => xor64 (xor64 (h.getD i 0) (vf.getD i 0)) (vf.getD (8 + i) 0))

/-- Zero-pad a final block (length at most 128) to 128 bytes. -/
def padBlock (l : List Nat) : List Nat :=
  l ++ List.replicate (128 - l.length) 0

/-- Process the message in 128-byte blocks.  `fuel` only bounds the recursion
    and is always supplied as the message length, which exceeds the number of
    full blocks, so the fuel-exhausted branch is unreachable. -/
def blakeRun (h : List Nat) (msg : List Nat) (done fuel : Nat) : List Nat :=
  if msg.length ≤ 128 then blakeCompress h (padBlock msg) (done + msg.length) true
  else match fuel with
    | 0 => h
    | fuel + 1 =>
      blakeRun (blakeCompress h (msg.take 128) (done + 128) false) (msg.drop 128)
        (done + 128) fuel

/-- The initial state for an unkeyed BLAKE2b with `digest_size = 8`:
    `h0 = IV0 xor 0x01010000 xor (kk << 8) xor nn` with `kk = 0`, `nn = 8`. -/
def blakeInit8 : List Nat :=
  (xor64 0x6a09e667f3bcc908 0x01010008) :: blakeIV.drop 1

/-- Little-endian byte expansion of a word, `n` bytes. -/
def leBytes (n w : Nat) : List Nat :=
  (List.range n).map (fun i => w / 256 ^ i % 256)

/-- `blake2b(data, digest_size=8).digest()`: the first eight output bytes,
    i.e. the little-endian bytes of the first state word. -/
def blake2b8 (msg : List Nat) : List Nat :=
  leBytes 8 ((blakeRun blakeInit8 msg 0 msg.length).getD 0 0)

/-- Lowercase hexadecimal digit for a value below 16. -/
def hexChar (n : Nat) : Char :=
  if n < 10 then Char.ofNat (48 + n) else Char.ofNat (87 + n)

/-- Lowercase hex rendering of a byte list, two characters per byte. -/
def hexOfBytes : List Nat → List Char
  | [] => []
  | b :: bs => hexChar (b / 16) :: hexChar (b % 16) :: hexOfBytes bs

/-- `.hexdigest()` of the 8-byte digest: a 16-character lowercase-hex string. -/
def blake2b8_hexdigest (msg : List Nat) : String :=
  (hexOfBytes (blake2b8 msg)).asString

/-- UTF-8 encoding of one code point. -/
def utf8EncodeChar (c : Nat) : List Nat :=
  if c < 0x80 then [c]
  else if c < 0x800 then [0xC0 + c / 64, 0x80 + c % 64]
  else if c < 0x10000 then [0xE0 + c / 4096, 0x80 + c / 64 % 64, 0x80 + c % 64]
  else [0xF0 + c / 262144, 0x80 + c / 4096 % 64, 0x80 + c / 64 % 64, 0x80 + c % 64]

/-- `bytes(s, 'utf-8')`. -/
def utf8Encode (s : String) : List Nat :=
  (s.toList.map (fun ch => utf8EncodeChar ch.toNat)).flatten

/-- Python `str.strip()`: drop leading and trailing whitespace characters. -/
def pyStrip (s : String) : String :=
  (((s.toList.dropWhile pyIsSpace).reverse.dropWhile pyIsSpace).reverse).asString

/-! ### anon.py -/

/-- Name of the generated pseudonymous column (`ANONYMOUS_ID`). -/
def ANONYMOUS_ID : String := "student_anon"

/-- The anonymization token computed in `transform_to_anonymous`:
    `blake2b(bytes(s.strip(), 'utf-8'), digest_size=8).hexdigest()`. -/
def anon_token (s : String) : String :=
  blake2b8_hexdigest (utf8Encode (pyStrip s))

/-- `transform_to_anonymous` (anon.py), returning `(return value, state of the
    caller's argument object after the call)`.  When `on_column` is absent the
    function returns its argument unchanged.  Otherwise
    `df[to_column] = series.apply(...)` mutates the argument object (adding
    the token column at the end), and the final `df = df[new_cols]` rebinds
    only the local name to a fresh reordered frame, leaving the caller with
    the mutated object.  The id cells are `string` dtype at every call site,
    read through `cellKey`. -/
def transform_to_anonymous (df : DataFrame) (on_column to_column : String) :
    DataFrame × DataFrame :=
  if ¬ df.hasCol on_column then (df, df)
  else
    let series := df.col on_column
    let df1 := df.setCol to_column (series.map (fun c => Cell.str (anon_token (cellKey c))))
    let cur_cols := df1.cols
    let ix := (findCol cur_cols on_column).getD 0
    let new_cols := cur_cols.take ix ++ cur_cols.drop (cur_cols.length - 1)
      ++ (cur_cols.drop ix).dropLast
    (df1.select new_cols, df1)

/-- `strip_leading_letter` (anon.py): drop the first character unless it is a
    decimal digit (`name.startswith(tuple(string.digits))`). -/
def strip_leading_letter (name : String) : String :=
  if ¬ (name.toList.headD 'x').isDigit then name.drop 1 else name

/-- `strip_leading_letter_from_column` (anon.py): `df[namecol] = series.apply(...)`
    mutates the caller's object and returns it, so both components of the
    `(return, caller)` pair are the mutated frame. -/
def strip_leading_letter_from_column (df : DataFrame) (namecol : String) :
    DataFrame × DataFrame :=
  let df1 := df.mapCol namecol (fun c => Cell.str (strip_leading_letter (cellKey c)))
  (df1, df1)

/-- `read_and_clean` (anon.py) minus the `pd.read_excel` call: takes the
    already-read table.  Drops rows with NaN in `column` (raising `KeyError`
    when the column is absent), coerces to string, strips surrounding
    whitespace, and de-duplicates keeping the first occurrence. -/
def read_and_clean (df : DataFrame) (column : String) : Except String DataFrame := do
  let df ← df.dropna column
  let df := df.astypeStr column
  let names := df.col column
  let df := df.setCol column (names.map (fun c => Cell.str (pyStrip (cellKey c))))
  pure (df.drop_duplicates column)

/-- `load_and_prepare_survey_data` (anon.py) minus the file read: clean,
    optionally strip the leading letter, anonymize, then rank.  The bare
    `df[namecol]` expression in the source cannot fail here because
    `read_and_clean` has already required the column. -/
def load_and_prepare_survey_data (df : DataFrame) (namecol : String) (strip : Bool) :
    Except String DataFrame := do
  let df ← read_and_clean df namecol
  let df := if strip then (strip_leading_letter_from_column df namecol).1 else df
  let df := (transform_to_anonymous df namecol ANONYMOUS_ID).1
  pure (category_to_rank df).1

/-! ### ranking_data.py -/

/-- The parsed content of `Scoring.xlsx`: question text to rank dict, the
    shape `read_ranking_data` produces. -/
abbrev ScoringTable := List (String × List (String × Nat))

/-- The module-global `rank_lookup` of ranking_data.py, `None` until a scoring
    file has been loaded. -/
structure RankingState where
  rank_lookup : Option ScoringTable
deriving DecidableEq, Repr

/-- `load_ranking_from_folder` (ranking_data.py): `scoringFileExists` abstracts
    `(folder / SCORING_DATA_FILE).exists()` and `scoring` the content
    `read_ranking_data` would parse.  Returns `(return value, new module
    state)`: on a missing file it returns `False` and leaves the global
    `rank_lookup` untouched, raising nothing. -/
def load_ranking_from_folder (scoringFileExists : Bool) (scoring : ScoringTable)
    (st : RankingState) : Bool × RankingState :=
  if scoringFileExists then (true, ⟨some scoring⟩) else (false, st)

/-! ### Specification-side definitions and concrete inputs for the claims -/

/-- The spec's dedup contract on a value list: keep the first occurrence of
    each value, in original order (`seen` accumulates the values kept). -/
def dedupKeepFirst : List Cell → List Cell → List Cell
  | [], _ => []
  | v :: vs, seen =>
    if seen.contains v then dedupKeepFirst vs seen
    else v :: dedupKeepFirst vs (v :: seen)

/-- The Preparer pipeline in the order the spec claims (drop-null and trim,
    then strip the leading letter, and only after that de-duplicate), for
    comparison against `load_and_prepare_survey_data`, whose cleaning stage
    de-duplicates before stripping. -/
def prepare_spec_order (df : DataFrame) (idcol : String) (strip : Bool) :
    Except String DataFrame := do
  let df ← df.dropna idcol
  let df := df.astypeStr idcol
  let df := df.setCol idcol ((df.col idcol).map (fun c => Cell.str (pyStrip (cellKey c))))
  let df := if strip then
      df.setCol idcol ((df.col idcol).map (fun c => Cell.str (strip_leading_letter (cellKey c))))
    else df
  let df := df.drop_duplicates idcol
  let df := (transform_to_anonymous df idcol ANONYMOUS_ID).1
  pure (category_to_rank df).1

/-- The sixteen lowercase hexadecimal digit characters. -/
def hexDigitChars : List Char := "0123456789abcdef".toList

/-- The five canonical category labels, agreement first. -/
def categoryLabels : List String :=
  ["Strongly agree (SA)", "Agree (A)", "Neutral (N)", "Disagree (D)",
   "Strongly Disagree (SD)"]

/-- A one-column survey table for question `q` whose rows are the five
    canonical category labels in order. -/
def labelFrame (q : String) : DataFrame :=
  ⟨[q], categoryLabels.map (fun l => [Cell.str l])⟩

/-- One possible Python set iteration order: the distinct elements in first
    occurrence order. -/
def hashOrderA : List String → List String := fun l => l.dedup

/-- Another possible Python set iteration order: the distinct elements in
    reversed first-occurrence order. -/
def hashOrderB : List String → List String := fun l => l.dedup.reverse

/-- A t-test stand-in that records exactly the two sample vectors it is
    handed, to observe what `paired_ttest` feeds scipy. -/
def record_samples : List Cell → List Cell → List Cell × List Cell :=
  fun a b => (a, b)

/-- First question of `RANK_LOOKUP` (positively phrased). -/
def quest1 : String := "I feel that students in this course care about each other"

/-- Second question of `RANK_LOOKUP` (positively phrased). -/
def quest2 : String := "I feel that I am encouraged to ask questions"

/-- Prepared before-table: respondents a, b with ranks for two scored
    questions. -/
def tb_before : DataFrame :=
  ⟨[ANONYMOUS_ID, quest1, quest2],
   [[Cell.str "a", Cell.num 4, Cell.num 4], [Cell.str "b", Cell.num 3, Cell.num 2]]⟩

/-- Prepared after-table for the same respondents and questions. -/
def tb_after : DataFrame :=
  ⟨[ANONYMOUS_ID, quest1, quest2],
   [[Cell.str "a", Cell.num 0, Cell.num 1], [Cell.str "b", Cell.num 2, Cell.num 2]]⟩

/-- Before-table whose single respondent a does not recur after. -/
def tb_before_only_a : DataFrame :=
  ⟨[ANONYMOUS_ID, quest1], [[Cell.str "a", Cell.num 4]]⟩

/-- After-table whose single respondent b does not occur before. -/
def tb_after_only_b : DataFrame :=
  ⟨[ANONYMOUS_ID, quest1], [[Cell.str "b", Cell.num 2]]⟩

/-- After-table sharing respondent a with `tb_before_only_a` but no scored
    question. -/
def tb_after_other_question : DataFrame :=
  ⟨[ANONYMOUS_ID, quest2], [[Cell.str "a", Cell.num 2]]⟩

/-- A raw table with an identifier column and one data column. -/
def tbl_id_q : DataFrame :=
  ⟨["id", "q"], [[Cell.str "s1", Cell.str "x"]]⟩

/-- A raw table whose two identifiers differ only by the leading letter. -/
def tbl_strip_collision : DataFrame :=
  ⟨["id"], [[Cell.str "s123"], [Cell.str "123"]]⟩

/-- A raw table without the identifier column `id`. -/
def tbl_no_id : DataFrame :=
  ⟨["other"], [[Cell.str "v"]]⟩

/-- A one-row survey table answering `quest1` with full agreement. -/
def tbl_one_answer : DataFrame :=
  ⟨[quest1], [[Cell.str "Strongly agree (SA)"]]⟩

end AnonExcel

deriving instance DecidableEq for Except

namespace AnonExcel

/-! ### Supporting lemmas about the frame operations -/

theorem contains_iff (l : List String) (a : String) : l.contains a = true ↔ a ∈ l := by
  simp [List.elem_iff]

theorem findCol_of_mem (l : List String) (c : String) (h : c ∈ l) :
    ∃ i, findCol l c = some i ∧ i < l.length ∧ l.getD i "" = c := by
  induction l with
  | nil => cases h
  | cons x xs ih =>
    by_cases hx : x = c
    · exact ⟨0, by simp [findCol, hx], by simp, by simp [hx]⟩
    · have hmem : c ∈ xs := by
        rcases List.mem_cons.mp h with h' | h'
        · exact absurd h'.symm hx
        · exact h'
      obtain ⟨i, hi, hlt, hg⟩ := ih hmem
      refine ⟨i + 1, by simp [findCol, hx, hi], by simpa using hlt, by simpa using hg⟩

theorem getD_map_lt (l : List String) (f : String → Cell) :
    ∀ i, i < l.length → (l.map f).getD i Cell.null = f (l.getD i "") := by
  induction l with
  | nil => intro i h; cases h
  | cons x xs ih =>
    intro i h
    cases i with
    | zero => simp
    | succ j => simpa using ih j (by simpa using h)

theorem col_length (df : DataFrame) (c : String) : (df.col c).length = df.rows.length := by
  simp [DataFrame.col]

theorem cols_setCol_of_mem (df : DataFrame) (c : String) (vs : List Cell)
    (h : c ∈ df.cols) : (df.setCol c vs).cols = df.cols := by
  simp [DataFrame.setCol, h]

theorem cols_setCol_of_not_mem (df : DataFrame) (c : String) (vs : List Cell)
    (h : c ∉ df.cols) : (df.setCol c vs).cols = df.cols ++ [c] := by
  simp [DataFrame.setCol, h]

theorem cellAt_eq_getD (df : DataFrame) (r : List Cell) (c : String) (i : Nat)
    (hfind : findCol df.cols c = some i) : df.cellAt r c = r.getD i Cell.null := by
  unfold DataFrame.cellAt
  rw [hfind]

theorem col_setCol_self (df : DataFrame) (c : String) (vs : List Cell)
    (hv : vs.length = df.rows.length) : (df.setCol c vs).col c = vs := by
  have hmem : c ∈ (df.setCol c vs).cols := by
    by_cases hc : c ∈ df.cols
    · rw [cols_setCol_of_mem df c vs hc]; exact hc
    · rw [cols_setCol_of_not_mem df c vs hc]; simp
  obtain ⟨i, hfind, hlt, hget⟩ := findCol_of_mem _ c hmem
  show ((df.rows.zip vs).map _).map _ = vs
  rw [List.map_map]
  have hrow : ∀ rv : List Cell × Cell,
      (DataFrame.cellAt (df.setCol c vs)
        ((df.setCol c vs).cols.map
          (fun c' => if c' = c then rv.2 else df.cellAt rv.1 c')) c) = rv.2 := by
    intro rv
    rw [cellAt_eq_getD _ _ _ i hfind]
    rw [getD_map_lt _ _ i hlt, hget]
    simp
  calc ((df.rows.zip vs).map fun rv =>
          DataFrame.cellAt (df.setCol c vs)
            ((df.setCol c vs).cols.map
              (fun c' => if c' = c then rv.2 else df.cellAt rv.1 c')) c)
      = (df.rows.zip vs).map (fun rv => rv.2) := List.map_congr_left (fun rv _ => hrow rv)
    _ = vs := List.map_snd_zip _ _ (le_of_eq hv)

theorem col_setCol_other (df : DataFrame) (c c' : String) (vs : List Cell)
    (hmem : c' ∈ df.cols) (hne : c' ≠ c) (hv : vs.length = df.rows.length) :
    (df.setCol c vs).col c' = df.col c' := by
  have hmem' : c' ∈ (df.setCol c vs).cols := by
    by_cases hc : c ∈ df.cols
    · rw [cols_setCol_of_mem df c vs hc]; exact hmem
    · rw [cols_setCol_of_not_mem df c vs hc]; exact List.mem_append_left _ hmem
  obtain ⟨i, hfind, hlt, hget⟩ := findCol_of_mem _ c' hmem'
  show ((df.rows.zip vs).map _).map _ = df.col c'
  rw [List.map_map]
  have hrow : ∀ rv : List Cell × Cell,
      (DataFrame.cellAt (df.setCol c vs)
        ((df.setCol c vs).cols.map
          (fun cc => if cc = c then rv.2 else df.cellAt rv.1 cc)) c') = df.cellAt rv.1 c' := by
    intro rv
    rw [cellAt_eq_getD _ _ _ i hfind]
    rw [getD_map_lt _ _ i hlt, hget]
    simp [hne]
  calc ((df.rows.zip vs).map fun rv =>
          DataFrame.cellAt (df.setCol c vs)
            ((df.setCol c vs).cols.map
              (fun cc => if cc = c then rv.2 else df.cellAt rv.1 cc)) c')
      = (df.rows.zip vs).map (fun rv => df.cellAt rv.1 c') :=
        List.map_congr_left (fun rv _ => hrow rv)
    _ = ((df.rows.zip vs).map Prod.fst).map (fun r => df.cellAt r c') := by
        rw [List.map_map]; rfl
    _ = df.rows.map (fun r => df.cellAt r c') := by
        rw [List.map_fst_zip _ _ (le_of_eq hv.symm)]
    _ = df.col c' := rfl

theorem col_mapCol_self (df : DataFrame) (c : String) (f : Cell → Cell) :
    (df.mapCol c f).col c = (df.col c).map f :=
  col_setCol_self df c _ (by rw [List.length_map, col_length])

theorem col_mapCol_other (df : DataFrame) (c c' : String) (f : Cell → Cell)
    (hmem : c' ∈ df.cols) (hne : c' ≠ c) : (df.mapCol c f).col c' = df.col c' :=
  col_setCol_other df c c' _ hmem hne (by rw [List.length_map, col_length])

theorem map_filter_comm {α β : Type} (f : α → β) (p : β → Bool) (l : List α) :
    (l.filter (fun a => p (f a))).map f = (l.map f).filter p := by
  induction l with
  | nil => rfl
  | cons x xs ih =>
    by_cases hx : p (f x)
    · simp [List.filter_cons, hx, ih]
    · simp [List.filter_cons, hx, ih]

theorem col_filterByCol_self (df : DataFrame) (c : String) (p : Cell → Bool) :
    (df.filterByCol c p).col c = (df.col c).filter p := by
  show (df.rows.filter _).map (fun r => df.cellAt r c) = _
  rw [map_filter_comm (fun r => df.cellAt r c) p df.rows]
  rfl

theorem map_dropDupRows (df : DataFrame) (c : String) :
    ∀ (rows : List (List Cell)) (seen : List Cell),
      (dropDupRows df c rows seen).map (fun r => df.cellAt r c)
        = dedupKeepFirst (rows.map (fun r => df.cellAt r c)) seen := by
  intro rows
  induction rows with
  | nil => intro seen; rfl
  | cons r rs ih =>
    intro seen
    by_cases hc : df.cellAt r c ∈ seen
    · simp [dropDupRows, dedupKeepFirst, hc, ih]
    · simp [dropDupRows, dedupKeepFirst, hc, ih]

theorem col_drop_duplicates (df : DataFrame) (c : String) :
    (df.drop_duplicates c).col c = dedupKeepFirst (df.col c) [] := by
  show (dropDupRows df c df.rows []).map (fun r => df.cellAt r c) = _
  rw [map_dropDupRows df c df.rows []]
  rfl

theorem col_select (df : DataFrame) (cs : List String) (c : String) (h : c ∈ cs) :
    (df.select cs).col c = df.col c := by
  obtain ⟨j, hfind, hlt, hget⟩ := findCol_of_mem cs c h
  show (df.rows.map _).map _ = df.col c
  rw [List.map_map]
  refine List.map_congr_left (fun r _ => ?_)
  show DataFrame.cellAt (df.select cs) (cs.map (fun cc => df.cellAt r cc)) c = df.cellAt r c
  rw [cellAt_eq_getD (df.select cs) _ c j hfind]
  rw [getD_map_lt cs _ j hlt, hget]

theorem cols_rankStep (df : DataFrame) (qr : String × List (String × Nat)) :
    (rankStep df qr).cols = df.cols := by
  unfold rankStep
  by_cases h : df.hasCol qr.1
  · have hmem : qr.1 ∈ df.cols := (contains_iff _ _).mp h
    have h1 : (df.mapCol qr.1 collapse_cell).cols = df.cols :=
      cols_setCol_of_mem df qr.1 _ hmem
    have hmem2 : qr.1 ∈ (df.mapCol qr.1 collapse_cell).cols := h1 ▸ hmem
    simp only [h, if_true]
    have h2 : ((df.mapCol qr.1 collapse_cell).mapCol qr.1 (map_ranks qr.2)).cols
        = (df.mapCol qr.1 collapse_cell).cols := cols_setCol_of_mem _ qr.1 _ hmem2
    rw [h2, h1]
  · simp [h]

theorem cols_foldl_rankStep (L : List (String × List (String × Nat))) :
    ∀ df : DataFrame, (L.foldl rankStep df).cols = df.cols := by
  induction L with
  | nil => intro df; rfl
  | cons e rest ih =>
    intro df
    rw [List.foldl_cons, ih (rankStep df e), cols_rankStep]

theorem col_rankStep_other (df : DataFrame) (qr : String × List (String × Nat))
    (c : String) (hmem : c ∈ df.cols) (hne : c ≠ qr.1) :
    (rankStep df qr).col c = df.col c := by
  unfold rankStep
  by_cases h : df.hasCol qr.1
  · have hq : qr.1 ∈ df.cols := (contains_iff _ _).mp h
    have h1 : (df.mapCol qr.1 collapse_cell).cols = df.cols :=
      cols_setCol_of_mem df qr.1 _ hq
    simp only [h, if_true]
    rw [col_mapCol_other _ qr.1 c _ (h1 ▸ hmem) hne,
      col_mapCol_other df qr.1 c _ hmem hne]
  · simp [h]

theorem col_foldl_rankStep_other (L : List (String × List (String × Nat))) :
    ∀ (df : DataFrame) (c : String), c ∈ df.cols → c ∉ L.map Prod.fst →
      (L.foldl rankStep df).col c = df.col c := by
  induction L with
  | nil => intro df c _ _; rfl
  | cons e rest ih =>
    intro df c hmem hnk
    rw [List.foldl_cons]
    have hne : c ≠ e.1 := by
      intro hc
      exact hnk (by simp [hc])
    have hmem' : c ∈ (rankStep df e).cols := (cols_rankStep df e) ▸ hmem
    rw [ih (rankStep df e) c hmem' (by intro hc; exact hnk (by simp [hc]))]
    exact col_rankStep_other df e c hmem hne

/-! ### Lemmas about single-question frames, for the rank-mapping claims -/

theorem col_single (q : String) (cells : List Cell) :
    (⟨[q], cells.map (fun c => [c])⟩ : DataFrame).col q = cells := by
  show (cells.map (fun c => [c])).map _ = cells
  rw [List.map_map]
  have : ∀ c : Cell,
      DataFrame.cellAt ⟨[q], cells.map (fun c => [c])⟩ [c] q = c := by
    intro c
    rw [cellAt_eq_getD _ _ _ 0 (by simp [findCol])]
    rfl
  calc cells.map (fun c => DataFrame.cellAt ⟨[q], cells.map (fun c => [c])⟩ [c] q)
      = cells.map id := List.map_congr_left (fun c _ => this c)
    _ = cells := List.map_id cells

theorem mapCol_single (q : String) (cells : List Cell) (f : Cell → Cell) :
    DataFrame.mapCol ⟨[q], cells.map (fun c => [c])⟩ q f
      = ⟨[q], (cells.map f).map (fun c => [c])⟩ := by
  unfold DataFrame.mapCol
  rw [col_single]
  unfold DataFrame.setCol
  have hcont : (([q] : List String).contains q) = true := by simp
  simp only [hcont, if_true]
  refine congrArg (DataFrame.mk [q]) ?_
  rw [List.zip_map']
  rw [List.map_map, List.map_map]
  refine List.map_congr_left (fun c _ => ?_)
  simp

theorem foldl_rankStep_single_skip (L : List (String × List (String × Nat))) :
    ∀ (q : String) (cells : List Cell), q ∉ L.map Prod.fst →
      L.foldl rankStep ⟨[q], cells.map (fun c => [c])⟩
        = ⟨[q], cells.map (fun c => [c])⟩ := by
  induction L with
  | nil => intro q cells _; rfl
  | cons e rest ih =>
    intro q cells h
    have hne : e.1 ≠ q := by
      intro hc
      exact h (by simp [hc])
    have hstep : rankStep ⟨[q], cells.map (fun c => [c])⟩ e
        = ⟨[q], cells.map (fun c => [c])⟩ := by
      unfold rankStep
      have : (⟨[q], cells.map (fun c => [c])⟩ : DataFrame).hasCol e.1 = false := by
        simp [DataFrame.hasCol, hne]
      simp [this]
    rw [List.foldl_cons, hstep]
    exact ih q cells (by intro hc; exact h (by simp [hc]))

theorem foldl_rankStep_single (L : List (String × List (String × Nat))) :
    ∀ (q : String) (ranks : List (String × Nat)) (cells : List Cell),
      (L.map Prod.fst).Nodup → lookupA L q = some ranks →
      L.foldl rankStep ⟨[q], cells.map (fun c => [c])⟩
        = ⟨[q], (cells.map (rank_cell ranks)).map (fun c => [c])⟩ := by
  induction L with
  | nil => intro q ranks cells _ h; simp [lookupA] at h
  | cons e rest ih =>
    intro q ranks cells hnd hl
    obtain ⟨k, rks⟩ := e
    rw [List.foldl_cons]
    by_cases hk : k = q
    · subst hk
      have hr : rks = ranks := by simpa [lookupA] using hl
      subst hr
      have hcont : (⟨[k], cells.map (fun c => [c])⟩ : DataFrame).hasCol k = true := by
        simp [DataFrame.hasCol]
      have hnd' : (k :: rest.map Prod.fst).Nodup := by simpa using hnd
      have hstep : rankStep ⟨[k], cells.map (fun c => [c])⟩ (k, rks)
          = ⟨[k], (cells.map (rank_cell rks)).map (fun c => [c])⟩ := by
        unfold rankStep
        simp only [hcont, if_true]
        rw [mapCol_single, mapCol_single]
        refine congrArg (DataFrame.mk [k]) ?_
        simp only [List.map_map]
        rfl
      rw [hstep]
      exact foldl_rankStep_single_skip rest k _ (List.nodup_cons.mp hnd').1
    · have hstep : rankStep ⟨[q], cells.map (fun c => [c])⟩ (k, rks)
          = ⟨[q], cells.map (fun c => [c])⟩ := by
        unfold rankStep
        have : (⟨[q], cells.map (fun c => [c])⟩ : DataFrame).hasCol k = false := by
          simp [DataFrame.hasCol, hk]
        simp [this]
      rw [hstep]
      have hnd' : (k :: rest.map Prod.fst).Nodup := by simpa using hnd
      have hrest : lookupA rest q = some ranks := by simpa [lookupA, hk] using hl
      exact ih q ranks cells (List.nodup_cons.mp hnd').2 hrest

theorem rankKeys_nodup : (RANK_LOOKUP.map Prod.fst).Nodup := by decide

theorem category_to_rank_fst (df : DataFrame) :
    (category_to_rank df).1 = category_to_rank_df df := by
  unfold category_to_rank
  dsimp only

theorem category_to_rank_df_eq (df : DataFrame) :
    category_to_rank_df df = RANK_LOOKUP.foldl rankStep df := by
  unfold category_to_rank_df
  rfl

theorem isSetEnum_hashOrderA : IsSetEnum hashOrderA :=
  fun _ => List.Perm.refl _

theorem isSetEnum_hashOrderB : IsSetEnum hashOrderB :=
  fun l => List.reverse_perm l.dedup

/-! ### The claims -/

set_option maxHeartbeats 1600000 in
/-- C10: under `category_to_rank`, a question whose `RANK_LOOKUP` entry is
    `POSITIV_RANK` resolves the canonical category sequence to ranks
    4,3,2,1,0; one with `NEGATIV_RANK` resolves it to 0,1,2,3,4; and a cell
    whose internal whitespace runs differ from the canonical label resolves to
    the same rank as the canonical label (whitespace is collapsed before
    lookup). -/
theorem rank_sequences_and_whitespace (qp qn : String)
    (hp : lookupA RANK_LOOKUP qp = some POSITIV_RANK)
    (hn : lookupA RANK_LOOKUP qn = some NEGATIV_RANK) :
    (category_to_rank (labelFrame qp)).1.col qp
        = [Cell.num 4, Cell.num 3, Cell.num 2, Cell.num 1, Cell.num 0]
    ∧ (category_to_rank (labelFrame qn)).1.col qn
        = [Cell.num 0, Cell.num 1, Cell.num 2, Cell.num 3, Cell.num 4]
    ∧ (∀ (ranks : List (String × Nat)) (s v : String), collapseWs s = collapseWs v →
        rank_cell ranks (Cell.str s) = rank_cell ranks (Cell.str v))
    ∧ rank_cell POSITIV_RANK (Cell.str "Strongly  agree (SA)")
        = rank_cell POSITIV_RANK (Cell.str "Strongly agree (SA)") := by
  have hnd : (RANK_LOOKUP.map Prod.fst).Nodup := rankKeys_nodup
  have frame_eq : ∀ q : String,
      labelFrame q = ⟨[q], (categoryLabels.map Cell.str).map (fun c => [c])⟩ := by
    intro q
    unfold labelFrame
    rw [List.map_map]
    rfl
  refine ⟨?_, ?_, ?_, by decide⟩
  · rw [category_to_rank_fst, frame_eq qp, category_to_rank_df_eq]
    rw [foldl_rankStep_single RANK_LOOKUP qp POSITIV_RANK _ hnd hp, col_single]
    decide
  · rw [category_to_rank_fst, frame_eq qn, category_to_rank_df_eq]
    rw [foldl_rankStep_single RANK_LOOKUP qn NEGATIV_RANK _ hnd hn, col_single]
    decide
  · intro ranks s v h
    show map_ranks ranks (collapse_cell (Cell.str s))
        = map_ranks ranks (collapse_cell (Cell.str v))
    simp [collapse_cell, h]

/-- C10 witness: the positive and negative rank sequences at the two questions
    the repository's own tests use. -/
theorem rank_sequences_and_whitespace_witness :
    (category_to_rank (labelFrame "I trust others in this course")).1.col
        "I trust others in this course"
      = [Cell.num 4, Cell.num 3, Cell.num 2, Cell.num 1, Cell.num 0]
    ∧ (category_to_rank (labelFrame "I feel reluctant to speak openly")).1.col
        "I feel reluctant to speak openly"
      = [Cell.num 0, Cell.num 1, Cell.num 2, Cell.num 3, Cell.num 4] := by
  have h := rank_sequences_and_whitespace "I trust others in this course"
    "I feel reluctant to speak openly" (by decide) (by decide)
  exact ⟨h.1, h.2.1⟩

/-- C3 (amended): a cell value whose whitespace-collapsed form is not a key of
    the question's rank dict resolves to NaN rather than raising; the blank
    string, however, is a key of both rank dicts and resolves to rank `0` —
    the same value as a valid extreme rank — not to a distinct missing
    marker. -/
theorem unmatched_null_blank_zero (ranks : List (String × Nat)) (v : String)
    (h : lookupA ranks (collapseWs v) = none) :
    rank_cell ranks (Cell.str v) = Cell.null
    ∧ rank_cell POSITIV_RANK (Cell.str "") = Cell.num 0
    ∧ rank_cell NEGATIV_RANK (Cell.str "") = Cell.num 0
    ∧ lookupA POSITIV_RANK "Strongly Disagree (SD)" = some 0 := by
  refine ⟨?_, by decide, by decide, by decide⟩
  show map_ranks ranks (collapse_cell (Cell.str v)) = Cell.null
  simp [collapse_cell, map_ranks, h]

/-- C3 witness: an unrecognized label resolves to NaN and the blank label to
    rank 0. -/
theorem unmatched_null_blank_zero_witness :
    rank_cell POSITIV_RANK (Cell.str "bogus") = Cell.null
    ∧ rank_cell POSITIV_RANK (Cell.str "") = Cell.num 0 := by
  have h := unmatched_null_blank_zero POSITIV_RANK "bogus" (by decide)
  exact ⟨h.1, h.2.1⟩

/-- C3 counterexample: the claim requires blank input to resolve to a missing
    marker outside the valid ranks 0–4, but under the code the blank string
    resolves to `num 0`, one of the five valid ranks. -/
theorem blank_resolves_to_valid_rank :
    rank_cell POSITIV_RANK (Cell.str "")
      ∈ [Cell.num 0, Cell.num 1, Cell.num 2, Cell.num 3, Cell.num 4] := by
  decide

/-- C5 (amended): the common-question list contains exactly the questions in
    the scoring vocabulary and in both column sets, without duplicates — but
    only up to permutation: its order is the Python set iteration order. -/
theorem common_questions_set_exact (enum : List String → List String)
    (df_bf df_af : DataFrame) (h : IsSetEnum enum) :
    (determine_common_questions enum df_bf df_af).Nodup
    ∧ (determine_common_questions enum df_bf df_af).Perm
        (rankKeys.filter (fun q => df_bf.hasCol q && df_af.hasCol q)) := by
  have hkeys : rankKeys.Nodup := rankKeys_nodup
  have hsub : (rankKeys.filter (fun q => df_bf.hasCol q && df_af.hasCol q)).Nodup :=
    List.Nodup.filter _ hkeys
  have hperm := h (rankKeys.filter (fun q => df_bf.hasCol q && df_af.hasCol q))
  rw [List.dedup_eq_self.mpr hsub] at hperm
  exact ⟨hperm.nodup_iff.mpr hsub, hperm⟩

/-- C5 witness: with the reversed set-enumeration order and the two concrete
    prepared tables, the question list is duplicate-free and a permutation of
    the vocabulary-filtered column intersection. -/
theorem common_questions_set_exact_witness :
    (determine_common_questions hashOrderB tb_before tb_after).Nodup
    ∧ (determine_common_questions hashOrderB tb_before tb_after).Perm
        (rankKeys.filter (fun q => tb_before.hasCol q && tb_after.hasCol q)) :=
  common_questions_set_exact hashOrderB tb_before tb_after isSetEnum_hashOrderB

/-- C5 counterexample: two admissible set-enumeration orders give different
    question lists for the same input tables, so the list order is not fixed
    across runs. -/
theorem question_list_order_not_fixed :
    IsSetEnum hashOrderA ∧ IsSetEnum hashOrderB
    ∧ determine_common_questions hashOrderA tb_before tb_after
        ≠ determine_common_questions hashOrderB tb_before tb_after :=
  ⟨isSetEnum_hashOrderA, isSetEnum_hashOrderB, by decide⟩

/-- C1 (code bug): on tables with two common questions and two common
    respondents, `paired_ttest` hands the per-respondent t-test a
    single-element sample — only the second common question's value — while
    the legend records both common questions: the source passes
    `quests_before[1:]` and `quests_after[1:]`, dropping the first common
    question from every per-respondent sample. -/
theorem per_student_sample_drops_first_question :
    (paired_ttest record_samples hashOrderA tb_before tb_after ANONYMOUS_ID).map
        (fun o => (o.legend.questions, o.stud_pairs.map (fun s => (s.student, s.res))))
      = Except.ok ([quest1, quest2],
          [("a", ([Cell.num 4], [Cell.num 1])), ("b", ([Cell.num 2], [Cell.num 2]))]) := by
  decide

/-- C8 (code bug): with no common respondents (or no common questions), the
    per-respondent (or per-question) result table is empty; `pd.DataFrame` of
    an empty list has no columns, so the final `sort_values` raises `KeyError`
    instead of returning empty result tables. -/
theorem paired_ttest_raises_on_empty_intersection :
    paired_ttest (fun _ _ => (0 : Nat)) hashOrderA tb_before_only_a tb_after_only_b
        ANONYMOUS_ID
      = Except.error "KeyError: student_anon"
    ∧ paired_ttest (fun _ _ => (0 : Nat)) hashOrderA tb_before_only_a
        tb_after_other_question ANONYMOUS_ID
      = Except.error "KeyError: question" := by
  exact ⟨by decide, by decide⟩

/-- C7 (amended): a missing scoring file makes `load_ranking_from_folder`
    return `False` without raising, leaving the module state unchanged; rank
    resolution still proceeds, via the hard-coded `RANK_LOOKUP`, independent
    of any loaded scoring table. -/
theorem missing_scoring_file_silent (scoring : ScoringTable) (st : RankingState) :
    load_ranking_from_folder false scoring st = (false, st)
    ∧ (category_to_rank tbl_one_answer).1.col quest1 = [Cell.num 4] :=
  ⟨rfl, by decide⟩

/-- C7 counterexample: with no scoring file loaded (state `none`), the loader
    reports `False` rather than an error, and `category_to_rank` still
    resolves the concrete answer to rank 4 — rank resolution neither fails
    loudly nor depends on the loaded table. -/
theorem rank_resolution_proceeds_without_scoring_file :
    load_ranking_from_folder false [] ⟨none⟩ = (false, ⟨none⟩)
    ∧ (category_to_rank tbl_one_answer).1.col quest1 = [Cell.num 4] :=
  ⟨rfl, by decide⟩

/-- C2 (amended): the Rank Resolver leaves the caller's table unchanged (it
    copies), but the Anonymizer appends the token column to the caller's table
    in place — though the pre-existing columns keep their original values —
    and the Preparer's leading-letter strip overwrites the identifier column
    in place, so the caller's object coincides with the return value. -/
theorem transform_mutation_behaviour (df : DataFrame) (onc toc c' : String)
    (h1 : onc ∈ df.cols) (h2 : toc ∉ df.cols) (h3 : c' ∈ df.cols) :
    (category_to_rank df).2 = df
    ∧ (transform_to_anonymous df onc toc).2.cols = df.cols ++ [toc]
    ∧ (transform_to_anonymous df onc toc).2.col c' = df.col c'
    ∧ (strip_leading_letter_from_column df onc).2
        = (strip_leading_letter_from_column df onc).1 := by
  have hcol : df.hasCol onc = true := (contains_iff _ _).mpr h1
  have h2nd : (transform_to_anonymous df onc toc).2
      = df.setCol toc ((df.col onc).map (fun c => Cell.str (anon_token (cellKey c)))) := by
    unfold transform_to_anonymous
    rw [if_neg (by simp [hcol])]
  refine ⟨rfl, ?_, ?_, rfl⟩
  · rw [h2nd]
    exact cols_setCol_of_not_mem df toc _ h2
  · rw [h2nd]
    exact col_setCol_other df toc c' _ h3 (fun hc => h2 (hc ▸ h3))
      (by rw [List.length_map, col_length])

/-- C2 witness: the mutation behaviour at a concrete two-column table. -/
theorem transform_mutation_behaviour_witness :
    (category_to_rank tbl_id_q).2 = tbl_id_q
    ∧ (transform_to_anonymous tbl_id_q "id" "anon").2.cols = tbl_id_q.cols ++ ["anon"]
    ∧ (transform_to_anonymous tbl_id_q "id" "anon").2.col "q" = tbl_id_q.col "q"
    ∧ (strip_leading_letter_from_column tbl_id_q "id").2
        = (strip_leading_letter_from_column tbl_id_q "id").1 :=
  transform_mutation_behaviour tbl_id_q "id" "anon" "q" (by decide) (by decide) (by decide)

/-- C2 counterexample: after `transform_to_anonymous` the caller's original
    table object has gained a new column, so the Anonymizer does not act as if
    on a copy. -/
theorem anonymizer_mutates_caller :
    (transform_to_anonymous tbl_id_q "id" "anon").2.cols ≠ tbl_id_q.cols
    ∧ (transform_to_anonymous tbl_id_q "id" "anon").2.cols = ["id", "q", "anon"] := by
  exact ⟨by decide, by decide⟩

/-- C6 (amended): with the identifier column absent, the Anonymizer returns
    the table unchanged (and leaves the caller's object untouched), but the
    Preparer raises `KeyError` from `dropna(subset=[idcol])` instead of
    passing the table through. -/
theorem missing_id_column_behaviour (df : DataFrame) (idcol toc : String) (b : Bool)
    (h : idcol ∉ df.cols) :
    transform_to_anonymous df idcol toc = (df, df)
    ∧ load_and_prepare_survey_data df idcol b = Except.error ("KeyError: " ++ idcol) := by
  have hcol : df.hasCol idcol = false := by
    cases hc : df.hasCol idcol
    · rfl
    · exact absurd ((contains_iff _ _).mp hc) h
  constructor
  · unfold transform_to_anonymous
    rw [if_pos (by simp [hcol])]
  · unfold load_and_prepare_survey_data read_and_clean DataFrame.dropna
    simp [hcol, Bind.bind, Except.bind]

/-- C6 witness: at a table without the `id` column, the Anonymizer passes the
    table through and the Preparer fails with `KeyError: id`. -/
theorem missing_id_column_behaviour_witness :
    transform_to_anonymous tbl_no_id "id" "student_anon" = (tbl_no_id, tbl_no_id)
    ∧ load_and_prepare_survey_data tbl_no_id "id" false
        = Except.error ("KeyError: " ++ "id") :=
  missing_id_column_behaviour tbl_no_id "id" "student_anon" false (by decide)

/-- C6 counterexample: the claim says the Preparer returns the table unchanged
    when the identifier column is absent; instead it raises `KeyError`. -/
theorem preparer_raises_on_missing_id_column :
    load_and_prepare_survey_data tbl_no_id "id" false = Except.error "KeyError: id" := by
  decide

/-! ### Lemmas about the anonymization token -/

theorem length_hexOfBytes : ∀ bs : List Nat, (hexOfBytes bs).length = 2 * bs.length := by
  intro bs
  induction bs with
  | nil => rfl
  | cons b bs ih =>
    show (hexOfBytes bs).length + 1 + 1 = _
    rw [ih, List.length_cons]
    omega

theorem length_leBytes (n w : Nat) : (leBytes n w).length = n := by
  simp [leBytes]

theorem hexChar_mem (n : Nat) (h : n < 16) : hexChar n ∈ hexDigitChars := by
  interval_cases n <;> decide

theorem mem_hexOfBytes : ∀ bs : List Nat, (∀ b ∈ bs, b < 256) →
    ∀ c ∈ hexOfBytes bs, c ∈ hexDigitChars := by
  intro bs
  induction bs with
  | nil =>
    intro _ c hc
    simp [hexOfBytes] at hc
  | cons b bs ih =>
    intro hb c hc
    have hblt : b < 256 := hb b (by simp)
    rcases (by simpa [hexOfBytes] using hc :
        c = hexChar (b / 16) ∨ c = hexChar (b % 16) ∨ c ∈ hexOfBytes bs) with h1 | h1 | h1
    · exact h1 ▸ hexChar_mem _ ((Nat.div_lt_iff_lt_mul (by norm_num)).mpr hblt)
    · exact h1 ▸ hexChar_mem _ (Nat.mod_lt _ (by norm_num))
    · exact ih (fun x hx => hb x (by simp [hx])) c h1

theorem blake2b8_lt (msg : List Nat) : ∀ b ∈ blake2b8 msg, b < 256 := by
  intro b hb
  have : b ∈ leBytes 8 ((blakeRun blakeInit8 msg 0 msg.length).getD 0 0) := hb
  simp only [leBytes, List.mem_map] at this
  obtain ⟨i, _, hi⟩ := this
  rw [← hi]
  exact Nat.mod_lt _ (by norm_num)

theorem anon_token_length (s : String) : (anon_token s).length = 16 := by
  show (hexOfBytes (blake2b8 (utf8Encode (pyStrip s)))).asString.length = 16
  show (hexOfBytes (blake2b8 (utf8Encode (pyStrip s)))).length = 16
  rw [length_hexOfBytes]
  show 2 * (leBytes 8 _).length = 16
  rw [length_leBytes]

theorem anon_token_chars (s : String) : ∀ c ∈ (anon_token s).data, c ∈ hexDigitChars := by
  intro c hc
  have hdata : (anon_token s).data = hexOfBytes (blake2b8 (utf8Encode (pyStrip s))) := rfl
  rw [hdata] at hc
  exact mem_hexOfBytes _ (blake2b8_lt _) c hc

set_option maxRecDepth 8192 in
theorem anon_token_s12345_value : anon_token "s12345" = "253e4af2296fff2f" := by
  decide

/-- C9: the anonymization token is the lowercase-hex rendering, 16 characters
    long, of the 8-byte unkeyed BLAKE2b digest of the UTF-8 encoding of the
    whitespace-trimmed identifier; it is a pure function of the trimmed form
    (equal trimmed identifiers give equal tokens), and its value on a concrete
    identifier matches the published BLAKE2b test value. -/
theorem anon_token_structure (s t : String) (h : pyStrip s = pyStrip t) :
    anon_token s = blake2b8_hexdigest (utf8Encode (pyStrip s))
    ∧ anon_token s = anon_token t
    ∧ (anon_token s).length = 16
    ∧ (∀ c ∈ (anon_token s).data, c ∈ hexDigitChars)
    ∧ anon_token "s12345" = "253e4af2296fff2f" := by
  refine ⟨rfl, ?_, anon_token_length s, anon_token_chars s, anon_token_s12345_value⟩
  unfold anon_token
  rw [h]

/-- C9 witness: an identifier with surrounding whitespace tokenizes like its
    trimmed form, and the token of `s12345` is the 16-hex-character BLAKE2b
    value. -/
theorem anon_token_structure_witness :
    anon_token "  s12345  " = anon_token "s12345"
    ∧ anon_token "s12345" = "253e4af2296fff2f" := by
  have h := anon_token_structure "  s12345  " "s12345" (by decide)
  exact ⟨h.2.1, h.2.2.2.2⟩

/-! ### The Preparer's cleaning order -/

theorem strip_fst (d : DataFrame) (c : String) :
    (strip_leading_letter_from_column d c).1
      = d.mapCol c (fun v => Cell.str (strip_leading_letter (cellKey v))) := by
  unfold strip_leading_letter_from_column
  dsimp only

theorem astypeStr_eq (d : DataFrame) (c : String) :
    d.astypeStr c = d.mapCol c astype_cell := by
  unfold DataFrame.astypeStr
  rfl
/-- C4 (amended): the Preparer's cleaning order is: drop rows with a null
    identifier, coerce to string and trim, de-duplicate keeping the first
    occurrence in original row order — and only then strip the leading
    non-digit character, so identifiers that become equal only after stripping
    both survive de-duplication. -/
theorem cleaning_dedups_before_strip (df : DataFrame) (idcol : String)
    (h : idcol ∈ df.cols) :
    (read_and_clean df idcol).map
        (fun d => ((strip_leading_letter_from_column d idcol).1).col idcol)
      = Except.ok
          ((dedupKeepFirst
              (((df.col idcol).filter (fun v => v ≠ Cell.null)).map
                (fun c => Cell.str (pyStrip (cellKey c)))) []).map
            (fun c => Cell.str (strip_leading_letter (cellKey c)))) := by
  have hcol : df.hasCol idcol = true := (contains_iff _ _).mpr h
  unfold read_and_clean DataFrame.dropna
  rw [if_pos hcol]
  simp only [Bind.bind, Except.bind, Except.map, pure, Except.pure]
  refine congrArg Except.ok ?_
  rw [strip_fst, col_mapCol_self, col_drop_duplicates]
  rw [col_setCol_self _ idcol _ (by rw [List.length_map, col_length])]
  rw [astypeStr_eq, col_mapCol_self, col_filterByCol_self, List.map_map]
  have hmaps : (List.filter (fun v => decide (v ≠ Cell.null)) (df.col idcol)).map
      ((fun c => Cell.str (pyStrip (cellKey c))) ∘ astype_cell)
      = (List.filter (fun v => decide (v ≠ Cell.null)) (df.col idcol)).map
        (fun c => Cell.str (pyStrip (cellKey c))) :=
    List.map_congr_left (fun v _ => by cases v <;> rfl)
  rw [hmaps]

/-- C4 witness: the cleaning-then-strip characterization at the table whose
    identifiers collide only after stripping. -/
theorem cleaning_dedups_before_strip_witness :
    (read_and_clean tbl_strip_collision "id").map
        (fun d => ((strip_leading_letter_from_column d "id").1).col "id")
      = Except.ok
          ((dedupKeepFirst
              (((tbl_strip_collision.col "id").filter (fun v => v ≠ Cell.null)).map
                (fun c => Cell.str (pyStrip (cellKey c)))) []).map
            (fun c => Cell.str (strip_leading_letter (cellKey c)))) :=
  cleaning_dedups_before_strip tbl_strip_collision "id" (by decide)

set_option maxRecDepth 8192 in
/-- C4 counterexample: on identifiers `s123` and `123`, the Preparer keeps two
    rows whose stripped identifiers coincide, while the claim's order (strip
    before de-duplication) would keep one; the two pipelines disagree. -/
theorem strip_after_dedup_leaves_duplicates :
    (load_and_prepare_survey_data tbl_strip_collision "id" true).map (fun d => d.col "id")
      = Except.ok [Cell.str "123", Cell.str "123"]
    ∧ (prepare_spec_order tbl_strip_collision "id" true).map (fun d => d.col "id")
      = Except.ok [Cell.str "123"]
    ∧ load_and_prepare_survey_data tbl_strip_collision "id" true
        ≠ prepare_spec_order tbl_strip_collision "id" true := by
  exact ⟨by decide, by decide, by decide⟩

end AnonExcel
